import Mathlib

/-!
Shallow embedding of the go-sendgrid client library.

The repository ships several revisions of the same package side by side:

* `src/v1/client.go` — the option-configured live client (`client` struct,
  `New`, `prepareEmail`, `Send` classification, contact fetching);
* `src/v1/sendgrid.go` — a `Config`-struct revision (`Client` struct with a
  `simulate` flag) followed by a types-only revision (which carries
  `Address.IsZero`);
* `src/v1/option.go` and `src/unnamed/part_000` — the functional options;
* `src/v1/mock.go` and `src/unnamed/part_001` — two revisions of the
  simulation (mock) client.

Pure data and control flow are translated directly; the HTTP exchange is
abstracted at the response boundary (`sendClassify` models the
classification tail of `client.Send`), and Go slice aliasing in
`prepareEmail` is modelled explicitly by returning both the prepared email
and the caller's email as it stands after the call.
-/

/-- Address from the types revision of `src/v1/sendgrid.go`:
`{Email string; Name string}`. -/
structure Address where
  Email : String
  Name : String
deriving DecidableEq, Repr

/-- Address.IsZero from `src/v1/sendgrid.go`: `return a.Email == ""`. -/
def Address.IsZero (a : Address) : Bool :=
  a.Email == ""

/-- Substitutions, Go `map[string]string`, modelled as an association list. -/
abbrev Substitutions := List (String × String)

/-- Personalization from `src/v1/sendgrid.go`: recipients, dynamic template
data and an optional subject. -/
structure Personalization where
  Recipients : List Address
  Substitutions : Substitutions
  Subject : String
deriving DecidableEq, Repr

/-- Attachment from `src/v1/sendgrid.go`. The Go field `Type` is rendered
`Type'` because `Type` is a Lean keyword. -/
structure Attachment where
  Content : String
  Type' : String
  Filename : String
  Disposition : String
  ContentId : String
deriving DecidableEq, Repr

/-- Email from `src/v1/sendgrid.go`: a templated email. -/
structure Email where
  TemplateId : String
  From : Address
  ReplyTo : Address
  Personalizations : List Personalization
  Attachments : List Attachment
deriving DecidableEq, Repr

/-- Contact from `src/v1/sendgrid.go`. The `Fields : map[string]interface{}`
member of the types-only revision is omitted: no claim inspects it and its
values are untyped. -/
structure Contact where
  Id : String
  Email : String
  FirstName : String
  LastName : String
  Lists : List String
deriving DecidableEq, Repr

/-- The sentinel error values of `src/v1/sendgrid.go` (`ErrBadRequest` …)
together with `Errorf`, which stands for an error built with `fmt.Errorf`
carrying a message string. -/
inductive GoError where
  | ErrBadRequest
  | ErrForbidden
  | ErrUnauthorized
  | ErrServiceError
  | ErrNotFound
  | Errorf (msg : String)
deriving DecidableEq, Repr

/-- Go `http.StatusBadRequest`. -/
def StatusBadRequest : Nat := 400

/-- Go `http.StatusUnauthorized`. -/
def StatusUnauthorized : Nat := 401

/-- Go `http.StatusForbidden`. -/
def StatusForbidden : Nat := 403

/-- Go `http.StatusInternalServerError`. -/
def StatusInternalServerError : Nat := 500

/-- An HTTP response as `client.Send` inspects it: the numeric status code,
the literal status text (Go `rsp.Status`), and the raw body already read
from the stream. -/
structure Response where
  StatusCode : Nat
  Status : String
  Body : String
deriving DecidableEq, Repr

/-- The response-classification tail of `client.Send`
(`src/v1/client.go` lines 188–203, identical in `src/v1/sendgrid.go`):
2xx returns the raw body; otherwise the status code is switched over
403/401/400/500 in the source's case order, and any other code yields
`fmt.Errorf("Unexpected status code: %v", rsp.Status)`. -/
def sendClassify (rsp : Response) : Except GoError String :=
  if 200 ≤ rsp.StatusCode ∧ rsp.StatusCode < 300 then
    Except.ok rsp.Body
  else if rsp.StatusCode = StatusForbidden then
    Except.error GoError.ErrForbidden
  else if rsp.StatusCode = StatusUnauthorized then
    Except.error GoError.ErrUnauthorized
  else if rsp.StatusCode = StatusBadRequest then
    Except.error GoError.ErrBadRequest
  else if rsp.StatusCode = StatusInternalServerError then
    Except.error GoError.ErrServiceError
  else
    Except.error (GoError.Errorf ("Unexpected status code: " ++ rsp.Status))

/-- The recipient rewrite of `prepareEmail` (`src/v1/client.go` line 217):
`Address{Email: overrideAddress, Name: a.Name}`. -/
def overrideRecipient (overrideAddress : String) (a : Address) : Address :=
  { Email := overrideAddress, Name := a.Name }

/-- The override loop of `prepareEmail` (`src/v1/client.go` lines 214–223):
when the override address is non-empty, every recipient of every
personalization is rewritten in place. -/
def overridePersonalizations (ps : List Personalization) (overrideAddress : String) :
    List Personalization :=
  if overrideAddress ≠ "" then
    ps.map (fun p => { p with Recipients := p.Recipients.map (overrideRecipient overrideAddress) })
  else
    ps

/-- prepareEmail from `src/v1/client.go` lines 206–225, with Go's slice
aliasing made explicit. `dup := *email` copies the struct but shares the
`Personalizations` backing array and each `Recipients` backing array with
the caller, so the in-place writes `p.Recipients[i] = …` of the override
loop are visible through the caller's email as well. The first component is
the email the function returns (`&dup`); the second is the caller's email
as it stands after the call: its `From`/`ReplyTo` are untouched, but its
recipients have been rewritten through the shared arrays. -/
def prepareEmail (email : Email) (defaultSender : Address) (overrideAddress : String) :
    Email × Email :=
  let ps := overridePersonalizations email.Personalizations overrideAddress
  ({ email with
      From := if email.From.IsZero then defaultSender else email.From
      ReplyTo := if email.ReplyTo.IsZero then defaultSender else email.ReplyTo
      Personalizations := ps },
   { email with Personalizations := ps })

/-- The result handling of `client.FetchContactWithParams`
(`src/v1/client.go` lines 104–111) after the response body has been decoded
into the `result` sequence: `if l := len(res.Contacts); l != 1` fail with
`ErrNotFound`, otherwise return `res.Contacts[0]`. -/
def fetchContactResult (contacts : List Contact) : Except GoError Contact :=
  if h : contacts.length ≠ 1 then
    Except.error GoError.ErrNotFound
  else
    Except.ok (contacts.get ⟨0, by omega⟩)

/-- The `client` struct of `src/v1/client.go`, without the embedded
`*http.Client` (the transport is abstracted). -/
structure client where
  base : String
  apikey : String
  overrideAddress : String
  defaultSender : Address
  verbose : Bool
deriving DecidableEq, Repr

/-- Config from `src/unnamed/part_000` (the options revision with a
`Verbose` field). -/
structure Config where
  Endpoint : String
  OverrideAddress : String
  DefaultSender : Address
  Verbose : Bool
deriving DecidableEq, Repr

/-- The option constructors of `src/unnamed/part_000` (Endpoint,
DefaultSender, OverrideAddress, Verbose), defunctionalized: each Go option
is a closure `func(Config) Config` produced by one of exactly these four
constructors. -/
inductive ClientOption where
  | endpoint (base : String)
  | defaultSender (sender : Address)
  | overrideAddress (override : String)
  | verbose (flag : Bool)
deriving DecidableEq, Repr

/-- The body of each option closure from `src/unnamed/part_000`: set the
corresponding field and return the updated config. -/
def ClientOption.apply : ClientOption → Config → Config
  | .endpoint base, c => { c with Endpoint := base }
  | .defaultSender sender, c => { c with DefaultSender := sender }
  | .overrideAddress override, c => { c with OverrideAddress := override }
  | .verbose flag, c => { c with Verbose := flag }

/-- defaultEndpoint from `src/v1/client.go`. -/
def defaultEndpoint : String := "https://api.sendgrid.com/v3"

/-- New from `src/v1/client.go` lines 38–54: start from a config whose
endpoint is `defaultEndpoint` and whose verbosity comes from the ambient
debug globals (passed here as `debugVerbose`), apply the options in order,
and build the client. The Go function also returns an error which is
always nil. -/
def New (apikey : String) (opts : List ClientOption) (debugVerbose : Bool) : client :=
  let conf := opts.foldl (fun c o => o.apply c)
    { Endpoint := defaultEndpoint, OverrideAddress := "",
      DefaultSender := { Email := "", Name := "" }, Verbose := debugVerbose }
  { base := conf.Endpoint, apikey := apikey,
    overrideAddress := conf.OverrideAddress,
    defaultSender := conf.DefaultSender, verbose := conf.Verbose }

/-- Config from the first revision in `src/v1/sendgrid.go` (struct-valued
configuration, no functional options). -/
structure sgConfig where
  APIKey : String
  BaseURL : String
  OverrideAddress : String
  DefaultSender : Address
  Simulate : Bool
deriving DecidableEq, Repr

/-- The `Client` struct of the first revision in `src/v1/sendgrid.go`,
without the embedded `*http.Client`. -/
structure sgClient where
  base : String
  apikey : String
  overrideAddress : String
  defaultSender : Address
  simulate : Bool
deriving DecidableEq, Repr

/-- New from `src/v1/sendgrid.go` lines 138–153: use `conf.BaseURL` when
non-empty, otherwise the default base; the returned error is always nil. -/
def sgNew (conf : sgConfig) : sgClient :=
  { base := if conf.BaseURL ≠ "" then conf.BaseURL else defaultEndpoint,
    apikey := conf.APIKey,
    overrideAddress := conf.OverrideAddress,
    defaultSender := conf.DefaultSender,
    simulate := conf.Simulate }

/-- The query parameters `client.FetchContact` builds (`src/v1/client.go`
lines 115–119): a fresh `url.Values` with the single entry
`user_id = id`. -/
def clientFetchContactParams (id : String) : List (String × String) :=
  [("user_id", id)]

/-- The query parameters `client.FetchContactByEmail` builds
(`src/v1/client.go` lines 122–126): the single entry `email`. -/
def clientFetchContactByEmailParams (email : String) : List (String × String) :=
  [("email", email)]

/-- client.FetchContact from `src/v1/client.go` lines 115–119, with the
delegated search-by-params operation abstracted as `search`: it builds its
single-parameter query and calls `FetchContactWithParams` on it. -/
def clientFetchContact (search : List (String × String) → Except GoError Contact)
    (id : String) : Except GoError Contact :=
  search (clientFetchContactParams id)

/-- client.FetchContactByEmail from `src/v1/client.go` lines 122–126,
delegation abstracted as for `clientFetchContact`. -/
def clientFetchContactByEmail (search : List (String × String) → Except GoError Contact)
    (email : String) : Except GoError Contact :=
  search (clientFetchContactByEmailParams email)

/-- The query parameters `Client.FetchContact` builds in
`src/v1/sendgrid.go` lines 229–233: the single entry `ext_id = id`. -/
def sgFetchContactParams (id : String) : List (String × String) :=
  [("ext_id", id)]

/-- Client.FetchContact from `src/v1/sendgrid.go` lines 229–233,
delegating to the private `fetchContact(params)` abstracted as `search`. -/
def sgFetchContact (search : List (String × String) → Except GoError Contact)
    (id : String) : Except GoError Contact :=
  search (sgFetchContactParams id)

/-- Client.FetchContactByEmail from `src/v1/sendgrid.go` lines 236–240:
the single entry `email`. -/
def sgFetchContactByEmail (search : List (String × String) → Except GoError Contact)
    (email : String) : Except GoError Contact :=
  search [("email", email)]

/-- The serialized payload of `client.SendEmail` (`src/v1/client.go`
lines 129–133): the live client marshals
`prepareEmail(email, c.defaultSender, c.overrideAddress)`. -/
def client.SendEmailPayload (c : client) (email : Email) : Email :=
  (prepareEmail email c.defaultSender c.overrideAddress).1

/-- The `mock` struct of `src/v1/mock.go`: it holds only the base URL — no
default sender and no override address. -/
structure mockV1 where
  base : String
deriving DecidableEq, Repr

/-- mock.SendEmail from `src/v1/mock.go` lines 26–29: it dumps the caller's
email as-is (`c.dump("POST", "/mail/send", email)`) and returns nil. The
first component is the entity handed to `dump`, the second the returned
error. -/
def mockV1.SendEmail (_c : mockV1) (email : Email) : Email × Option GoError :=
  (email, none)

/-- The `mock` struct of `src/unnamed/part_001`: base URL, default sender,
override address and verbosity. -/
structure mockP1 where
  base : String
  defaultSender : Address
  overrideAddress : String
  verbose : Bool
deriving DecidableEq, Repr

/-- mock.SendEmail from `src/unnamed/part_001` lines 34–37: it dumps
`prepareEmail(email, c.defaultSender, c.overrideAddress)` and returns nil.
The first component is the entity handed to `dump`, the second the
returned error. -/
def mockP1.SendEmail (c : mockP1) (email : Email) : Email × Option GoError :=
  ((prepareEmail email c.defaultSender c.overrideAddress).1, none)

/-- mock.FetchContactWithParams from `src/unnamed/part_001` lines 56–63:
the simulation never finds a contact, it always returns `ErrNotFound`. -/
def mockFetchContactWithParams (_params : List (String × String)) : Except GoError Contact :=
  Except.error GoError.ErrNotFound

/-- mock.FetchContact from `src/unnamed/part_001` lines 44–48: the single
entry `ext_id = id`, delegated to `FetchContactWithParams`. -/
def mockFetchContact (id : String) : Except GoError Contact :=
  mockFetchContactWithParams [("ext_id", id)]

/-- Option predicate used by the amended endpoint invariant: true exactly
for options built with the `Endpoint` constructor. -/
def ClientOption.isEndpointOpt : ClientOption → Bool
  | .endpoint _ => true
  | _ => false

/-- Option predicate used by the amended endpoint invariant: an option
keeps the endpoint non-empty unless it is `Endpoint("")`. -/
def ClientOption.keepsEndpoint : ClientOption → Bool
  | .endpoint base => base != ""
  | _ => true

/-- A concrete email used by the witnesses: zero `From`/`ReplyTo`, one
personalization with the single recipient `{real@y.com, Y}`. -/
def sampleEmail : Email :=
  { TemplateId := "tmpl-1",
    From := { Email := "", Name := "" },
    ReplyTo := { Email := "", Name := "" },
    Personalizations :=
      [{ Recipients := [{ Email := "real@y.com", Name := "Y" }],
         Substitutions := [("k", "v")], Subject := "hello" }],
    Attachments := [] }

/-- A concrete non-zero sender used by the witnesses. -/
def sampleSender : Address := { Email := "from@x.com", Name := "X" }

/-- C1: with a non-empty override address, after `prepareEmail` every
recipient of every personalization of the returned email has the override
address as its email field, the display names are unchanged positionally,
and the `From`/`ReplyTo` fields are exactly what a run without override
produces — the override step does not touch them. -/
theorem prepareEmail_override_rewrites_recipients (e : Email) (ds : Address) (ov : String)
    (h : ov ≠ "") :
    (∀ p ∈ ((prepareEmail e ds ov).1).Personalizations, ∀ a ∈ p.Recipients, a.Email = ov) ∧
    ((prepareEmail e ds ov).1).Personalizations.map (fun p => p.Recipients.map Address.Name)
      = e.Personalizations.map (fun p => p.Recipients.map Address.Name) ∧
    ((prepareEmail e ds ov).1).From = ((prepareEmail e ds "").1).From ∧
    ((prepareEmail e ds ov).1).ReplyTo = ((prepareEmail e ds "").1).ReplyTo := by
  refine ⟨?_, ?_, by simp [prepareEmail], by simp [prepareEmail]⟩
  · intro p hp a ha
    simp only [prepareEmail, overridePersonalizations, if_pos h, List.mem_map] at hp
    obtain ⟨q, _, rfl⟩ := hp
    simp only [List.mem_map] at ha
    obtain ⟨b, _, rfl⟩ := ha
    rfl
  · simp [prepareEmail, overridePersonalizations, h, List.map_map, Function.comp,
      overrideRecipient]

/-- Witness for C1 at a concrete email, sender and override address. -/
theorem prepareEmail_override_rewrites_recipients_witness :
    (∀ p ∈ ((prepareEmail sampleEmail sampleSender "test@x.com").1).Personalizations,
        ∀ a ∈ p.Recipients, a.Email = "test@x.com") ∧
    ((prepareEmail sampleEmail sampleSender "test@x.com").1).Personalizations.map
        (fun p => p.Recipients.map Address.Name)
      = sampleEmail.Personalizations.map (fun p => p.Recipients.map Address.Name) ∧
    ((prepareEmail sampleEmail sampleSender "test@x.com").1).From
      = ((prepareEmail sampleEmail sampleSender "").1).From ∧
    ((prepareEmail sampleEmail sampleSender "test@x.com").1).ReplyTo
      = ((prepareEmail sampleEmail sampleSender "").1).ReplyTo :=
  prepareEmail_override_rewrites_recipients sampleEmail sampleSender "test@x.com" (by decide)

/-- C4: `prepareEmail` replaces `From` with the default sender exactly when
`From` is the zero address, and likewise for `ReplyTo`; a non-zero field is
returned exactly as the caller set it. -/
theorem prepareEmail_default_sender_iff_zero (e : Email) (ds : Address) (ov : String) :
    (e.From.IsZero = true → ((prepareEmail e ds ov).1).From = ds) ∧
    (e.From.IsZero = false → ((prepareEmail e ds ov).1).From = e.From) ∧
    (e.ReplyTo.IsZero = true → ((prepareEmail e ds ov).1).ReplyTo = ds) ∧
    (e.ReplyTo.IsZero = false → ((prepareEmail e ds ov).1).ReplyTo = e.ReplyTo) := by
  refine ⟨?_, ?_, ?_, ?_⟩ <;> intro h <;> simp [prepareEmail, h]

/-- C8: `prepareEmail` is idempotent — running it a second time with the
same default sender and override address returns the same email. -/
theorem prepareEmail_idempotent (e : Email) (ds : Address) (ov : String) :
    (prepareEmail ((prepareEmail e ds ov).1) ds ov).1 = (prepareEmail e ds ov).1 := by
  have hFill : ∀ a : Address,
      (if (if a.IsZero then ds else a).IsZero then ds else if a.IsZero then ds else a)
        = (if a.IsZero then ds else a) := by
    intro a
    by_cases h : a.IsZero <;> simp [h]
  have hPs : ∀ ps : List Personalization,
      overridePersonalizations (overridePersonalizations ps ov) ov
        = overridePersonalizations ps ov := by
    intro ps
    by_cases h : ov = ""
    · simp [overridePersonalizations, h]
    · simp [overridePersonalizations, h, List.map_map, Function.comp, overrideRecipient]
  simp [prepareEmail, hFill, hPs]

/-- C10: when the configured default sender is itself the zero address,
preparing an email whose `From` (or `ReplyTo`) is zero leaves that field
zero — `prepareEmail` guarantees no non-zero sender on its output. -/
theorem prepareEmail_zero_default_sender (e : Email) (ds : Address) (ov : String)
    (h : ds.IsZero = true) :
    (e.From.IsZero = true → ((prepareEmail e ds ov).1).From.IsZero = true) ∧
    (e.ReplyTo.IsZero = true → ((prepareEmail e ds ov).1).ReplyTo.IsZero = true) := by
  constructor <;> intro hz <;> simp [prepareEmail, hz, h]

/-- Witness for C10: a zero default sender and the sample email with zero
`From`/`ReplyTo`. -/
theorem prepareEmail_zero_default_sender_witness :
    (sampleEmail.From.IsZero = true
      → ((prepareEmail sampleEmail { Email := "", Name := "" } "test@x.com").1).From.IsZero = true) ∧
    (sampleEmail.ReplyTo.IsZero = true
      → ((prepareEmail sampleEmail { Email := "", Name := "" } "test@x.com").1).ReplyTo.IsZero = true) :=
  prepareEmail_zero_default_sender sampleEmail { Email := "", Name := "" } "test@x.com" (by decide)

/-- C2: `Send` returns the raw response body with no error exactly for 2xx
statuses; 400, 401, 403 and 500 map to their sentinel errors, and every
other non-2xx status yields the generic error carrying the literal status
text. -/
theorem send_status_classification (code : Nat) (status body : String) :
    (sendClassify { StatusCode := code, Status := status, Body := body } = Except.ok body
       ↔ 200 ≤ code ∧ code < 300) ∧
    sendClassify { StatusCode := 400, Status := status, Body := body }
      = Except.error GoError.ErrBadRequest ∧
    sendClassify { StatusCode := 401, Status := status, Body := body }
      = Except.error GoError.ErrUnauthorized ∧
    sendClassify { StatusCode := 403, Status := status, Body := body }
      = Except.error GoError.ErrForbidden ∧
    sendClassify { StatusCode := 500, Status := status, Body := body }
      = Except.error GoError.ErrServiceError ∧
    (¬(200 ≤ code ∧ code < 300) → code ≠ 400 → code ≠ 401 → code ≠ 403 → code ≠ 500 →
      sendClassify { StatusCode := code, Status := status, Body := body }
        = Except.error (GoError.Errorf ("Unexpected status code: " ++ status))) := by
  refine ⟨?_, ?_, ?_, ?_, ?_, ?_⟩
  · constructor
    · intro hok
      by_contra h2
      simp only [sendClassify, if_neg h2] at hok
      iterate 4 (split at hok <;> try exact Except.noConfusion hok)
    · intro h2
      simp [sendClassify, h2]
  · simp [sendClassify, StatusForbidden, StatusUnauthorized, StatusBadRequest]
  · simp [sendClassify, StatusForbidden, StatusUnauthorized]
  · simp [sendClassify, StatusForbidden]
  · simp [sendClassify, StatusForbidden, StatusUnauthorized, StatusBadRequest,
      StatusInternalServerError]
  · intro h2 h400 h401 h403 h500
    simp [sendClassify, h2, StatusForbidden, StatusUnauthorized, StatusBadRequest,
      StatusInternalServerError, h400, h401, h403, h500]

/-- C3: the post-decode step of `FetchContactWithParams` succeeds with a
contact exactly when the decoded `result` sequence is the singleton of that
contact; a sequence of any other length fails with `ErrNotFound`. -/
theorem fetchContactResult_exactly_one (contacts : List Contact) :
    (∀ c, fetchContactResult contacts = Except.ok c ↔ contacts = [c]) ∧
    (contacts.length ≠ 1 → fetchContactResult contacts = Except.error GoError.ErrNotFound) := by
  constructor
  · intro c
    match contacts with
    | [] => simp [fetchContactResult]
    | [d] => simp [fetchContactResult]
    | d :: e :: t => simp [fetchContactResult]
  · intro h
    simp [fetchContactResult, h]

/-- C5 (code bug evidence): `prepareEmail` with a non-empty override
address does mutate the caller-supplied email — the shared recipient
arrays of the caller's personalizations now carry the override address. -/
theorem prepareEmail_mutates_caller :
    (prepareEmail sampleEmail sampleSender "test@x.com").2 ≠ sampleEmail ∧
    ((prepareEmail sampleEmail sampleSender "test@x.com").2).Personalizations.map
        (fun p => p.Recipients.map Address.Email) = [["test@x.com"]] ∧
    sampleEmail.Personalizations.map (fun p => p.Recipients.map Address.Email)
      = [["real@y.com"]] := by
  refine ⟨by decide, by decide, by decide⟩

/-- C6 (counterexample): `client.FetchContact` of `src/v1/client.go` sets
the single query parameter `user_id`, not `ext_id` as claimed. -/
theorem clientFetchContact_param_not_ext_id :
    clientFetchContactParams "42" = [("user_id", "42")] ∧
    clientFetchContactParams "42" ≠ [("ext_id", "42")] :=
  ⟨rfl, by decide⟩

/-- C6 (amended): each FetchContact variant builds a single-entry query and
delegates it to its search-by-params operation: `ext_id` in the
`src/v1/sendgrid.go` client and the `src/unnamed/part_001` mock, but
`user_id` in the `src/v1/client.go` client; FetchContactByEmail sets
`email` everywhere. -/
theorem fetchContact_parameter_names (id email : String)
    (search : List (String × String) → Except GoError Contact) :
    clientFetchContact search id = search [("user_id", id)] ∧
    clientFetchContactByEmail search email = search [("email", email)] ∧
    sgFetchContact search id = search [("ext_id", id)] ∧
    sgFetchContactByEmail search email = search [("email", email)] ∧
    mockFetchContact id = mockFetchContactWithParams [("ext_id", id)] ∧
    clientFetchContactParams id ≠ sgFetchContactParams id := by
  refine ⟨rfl, rfl, rfl, rfl, rfl, ?_⟩
  simp [clientFetchContactParams, sgFetchContactParams]

/-- C7 (counterexample): the `src/v1/mock.go` simulation client renders the
caller's email untransformed — with an override address and default sender
configured on the live client, its payload differs from the live payload. -/
theorem mockV1_sendEmail_not_prepared :
    (mockV1.SendEmail { base := "https://api.sendgrid.com/v3" } sampleEmail).1
      ≠ client.SendEmailPayload
          { base := "https://api.sendgrid.com/v3", apikey := "k",
            overrideAddress := "test@x.com", defaultSender := sampleSender,
            verbose := false } sampleEmail := by
  decide

/-- C7 (amended): the `src/unnamed/part_001` simulation client applies
exactly the live client's preparation transform to the email it renders
and always returns no error; the `src/v1/mock.go` simulation client
renders the caller's email as-is, also always returning no error. -/
theorem mock_sendEmail_payloads (base apikey : String) (ds : Address) (ov : String)
    (vb : Bool) (e : Email) :
    (mockP1.SendEmail { base := base, defaultSender := ds, overrideAddress := ov,
                        verbose := vb } e).1
      = client.SendEmailPayload { base := base, apikey := apikey, overrideAddress := ov,
                                  defaultSender := ds, verbose := vb } e ∧
    (mockP1.SendEmail { base := base, defaultSender := ds, overrideAddress := ov,
                        verbose := vb } e).2 = none ∧
    (mockV1.SendEmail { base := base } e).1 = e ∧
    (mockV1.SendEmail { base := base } e).2 = none :=
  ⟨rfl, rfl, rfl, rfl⟩

/-- Folding options that all keep the endpoint non-empty over a config with
a non-empty endpoint yields a non-empty endpoint. -/
theorem foldl_options_endpoint_nonempty (opts : List ClientOption) (conf : Config)
    (hc : conf.Endpoint ≠ "")
    (h : opts.all ClientOption.keepsEndpoint = true) :
    (opts.foldl (fun c o => o.apply c) conf).Endpoint ≠ "" := by
  induction opts generalizing conf with
  | nil => exact hc
  | cons o t ih =>
    simp only [List.all_cons, Bool.and_eq_true] at h
    refine ih (o.apply conf) ?_ h.2
    cases o with
    | endpoint b =>
      simpa [ClientOption.apply, ClientOption.keepsEndpoint] using h.1
    | defaultSender s => simpa [ClientOption.apply] using hc
    | overrideAddress ov => simpa [ClientOption.apply] using hc
    | verbose f => simpa [ClientOption.apply] using hc

/-- Folding options none of which is an `Endpoint` option leaves the
config's endpoint untouched. -/
theorem foldl_options_endpoint_untouched (opts : List ClientOption) (conf : Config)
    (h : opts.all (fun o => !o.isEndpointOpt) = true) :
    (opts.foldl (fun c o => o.apply c) conf).Endpoint = conf.Endpoint := by
  induction opts generalizing conf with
  | nil => rfl
  | cons o t ih =>
    simp only [List.all_cons, Bool.and_eq_true] at h
    rw [List.foldl_cons, ih (o.apply conf) h.2]
    cases o with
    | endpoint b => simp [ClientOption.isEndpointOpt] at h
    | defaultSender s => rfl
    | overrideAddress ov => rfl
    | verbose f => rfl

/-- C9 (counterexample): the claimed invariant fails — an option sequence
containing `Endpoint("")` yields a client whose endpoint is empty. -/
theorem new_endpoint_empty_on_empty_option :
    (New "key" [ClientOption.endpoint ""] false).base = "" :=
  rfl

/-- C9 (amended): a client built by `New` has the default service base URL
when no option touches the endpoint, and a non-empty endpoint for every
option sequence whose `Endpoint` options all carry a non-empty base; the
`Config`-struct constructor of `src/v1/sendgrid.go` yields a non-empty
endpoint unconditionally. -/
theorem new_endpoint_nonempty (apikey : String) (opts opts2 : List ClientOption)
    (dbg : Bool) (conf : sgConfig)
    (h1 : opts.all ClientOption.keepsEndpoint = true)
    (h2 : opts2.all (fun o => !o.isEndpointOpt) = true) :
    (New apikey opts dbg).base ≠ "" ∧
    (New apikey opts2 dbg).base = defaultEndpoint ∧
    (sgNew conf).base ≠ "" := by
  refine ⟨?_, ?_, ?_⟩
  · exact foldl_options_endpoint_nonempty opts _ (by simp [defaultEndpoint]) h1
  · simpa [New] using foldl_options_endpoint_untouched opts2 _ h2
  · by_cases hb : conf.BaseURL = "" <;> simp [sgNew, hb, defaultEndpoint]

/-- Witness for C9's amended statement at concrete option sequences and a
concrete config with an empty base URL. -/
theorem new_endpoint_nonempty_witness :
    (New "key" [ClientOption.overrideAddress "test@x.com",
        ClientOption.endpoint "https://stub.test"] false).base ≠ "" ∧
    (New "key" [ClientOption.defaultSender { Email := "a@b", Name := "A" }] false).base
      = defaultEndpoint ∧
    (sgNew { APIKey := "k", BaseURL := "", OverrideAddress := "",
             DefaultSender := { Email := "", Name := "" }, Simulate := false }).base ≠ "" :=
  new_endpoint_nonempty "key" _ _ false _ (by decide) (by decide)
